import Mathlib

/-!
Verification of the raspberry access-control pipeline (`src/raspberry/pipeline.py`
and its collaborators `cache.py`, `sync_client.py`, `model_registry.py`).

The Python code is shallowly embedded: dictionaries become structures, the
mutable `AccessController` timing fields become an explicit `DState` value
threaded through `process_frame`, the side effects (calling `recognizer.embed`,
pulsing the GPIO, POSTing an access event) become an `Effects` record produced
by the decision step, and fallible network/IO collaborators become
`Except`-valued parameters.

External collaborators (numpy cosine similarity, the `datetime` parsers, the
recognizer's `embed`/`has_face`) are parameters of the embedded functions, as
they are in the source: `process_frame` receives the provider's report
(`hasFaceAttr`), the already-computed probe vector, and the similarity and
parsing functions.  Machine floats are modelled as exact rationals; the claims
settled here are about control flow (which entries are compared, which gate
fires, which effects happen), which does not depend on float rounding.
-/

namespace Raspberry

/-- A `users` entry of the cache / sync payload (`pipeline.py` reads
`u["id"]`, `u["identifier"]`, `u.get("expires_at")`). -/
structure User where
  id : Int
  identifier : String
  expires_at : Option String := none
deriving DecidableEq

/-- An `access_windows` entry (`_is_within_schedule` reads `w["user_id"]`,
`w["day_of_week"]`, `w["start_time"]`, `w["end_time"]`). -/
structure Window where
  user_id : Int
  day_of_week : Int
  start_time : String
  end_time : String
deriving DecidableEq

/-- An `embeddings` entry as built by `_build_embeddings_from_photos` /
`_load_local_users`.  `model_name` is read with `.get` and tested for
truthiness, so a missing key and an empty string behave alike; both are
modelled by `""`.  `is_local` is read with `.get` (absent ⇒ falsy ⇒ `false`). -/
structure Enrollment where
  user_id : Option Int := none
  person_name : Option String := none
  vector : List ℚ := []
  model_name : String := ""
  filename : Option String := none
  is_local : Bool := false
deriving DecidableEq

/-- A `photos` entry of the sync payload. -/
structure Photo where
  url : String := ""
  user_id : Option Int := none
  person_name : Option String := none
  filename : Option String := none
deriving DecidableEq

/-- The cache dictionary as consumed by the decision path
(`self.cache.get("users"/"embeddings"/"access_windows", [])`). -/
structure Cache where
  users : List User := []
  embeddings : List Enrollment := []
  access_windows : List Window := []
deriving DecidableEq

/-- The mutable timing state of `AccessController`
(`last_trigger_time`, `consecutive_triggers`, `last_no_face_time`). -/
structure DState where
  last_trigger_time : ℚ := 0
  consecutive_triggers : ℕ := 0
  last_no_face_time : ℚ := 0
deriving DecidableEq

/-- The dictionary returned by `process_frame`; the `no_face` / `max_triggers`
keys are present only on the corresponding early returns, modelled as flags
defaulting to `false`. -/
structure DecisionResult where
  allowed : Bool
  score : ℚ
  user_identifier : Option String
  triggered : Bool
  no_face : Bool := false
  max_triggers : Bool := false
deriving DecidableEq

/-- Which side effects a `process_frame` call performed: whether
`recognizer.embed` was invoked, whether `gpio.trigger()` was pulsed, and
whether `sync_client.send_event` was attempted. -/
structure Effects where
  embed_called : Bool := false
  gpio : Bool := false
  event : Bool := false
deriving DecidableEq

/-- Result of one embedded `process_frame` call: the returned decision, the
updated controller timing state, and the performed side effects. -/
structure PFOut where
  res : DecisionResult
  state : DState
  eff : Effects
deriving DecidableEq

/-- The configuration and external collaborators `process_frame` reads:
`settings.threshold`, `settings.access_cooldown_sec`, the active recognizer's
`name`, the similarity function (`model_registry.cosine_similarity`), the two
`datetime` parsers (`time.fromisoformat` as seconds-of-day,
`datetime.fromisoformat` as an absolute timestamp), and the current UTC
weekday / time-of-day / timestamp that `datetime.utcnow()` would report. -/
structure Env where
  threshold : ℚ
  cooldown_period : ℚ
  model : String
  sim : List ℚ → List ℚ → ℚ
  parseT : String → Option ℕ
  parseDT : String → Option ℚ
  day : Int
  tod : ℕ
  nowDT : ℚ

/-- `self.max_consecutive_triggers = 3` (hard-coded in `__init__`). -/
def max_consecutive_triggers : ℕ := 3

/-- One step of the `_best_match` loop body: skip entries whose `model_name`
differs from the active model (only when both names are truthy), skip entries
of the wrong dimensionality, otherwise keep the strictly best score seen so
far (the accumulator starts at `(None, 0.0)`). -/
def bm_step (sim : List ℚ → List ℚ → ℚ) (model : String) (probe : List ℚ)
    (acc : Option Enrollment × ℚ) (e : Enrollment) : Option Enrollment × ℚ :=
  if model ≠ "" ∧ e.model_name ≠ "" ∧ e.model_name ≠ model then acc
  else if e.vector.length ≠ probe.length then acc
  else if acc.2 < sim probe e.vector then (some e, sim probe e.vector)
  else acc

/-- `AccessController._best_match` (pipeline.py lines 168-190). -/
def best_match (sim : List ℚ → List ℚ → ℚ) (model : String) (probe : List ℚ)
    (embs : List Enrollment) : Option Enrollment × ℚ :=
  embs.foldl (bm_step sim model probe) (none, 0)

/-- An enrollment survives both `continue`s of `_best_match` for a probe of
length `dim`: it is not skipped by the model-name filter and its
dimensionality matches. -/
def eligible (model : String) (dim : ℕ) (e : Enrollment) : Prop :=
  ¬(model ≠ "" ∧ e.model_name ≠ "" ∧ e.model_name ≠ model) ∧ e.vector.length = dim

instance (model : String) (dim : ℕ) (e : Enrollment) :
    Decidable (eligible model dim e) := by
  unfold eligible; infer_instance

/-- `AccessController._is_within_schedule` (pipeline.py lines 192-211): filter
the windows of the user; no window means unrestricted; otherwise some window
must match today's weekday and contain the time of day inclusively, windows
whose time strings fail to parse being skipped. -/
def is_within_schedule (uid : Int) (windows : List Window) (day : Int)
    (tod : ℕ) (parseT : String → Option ℕ) : Bool :=
  let ws := windows.filter (fun w => w.user_id == uid)
  if ws.isEmpty then true
  else ws.any (fun w =>
    if w.day_of_week == day then
      match parseT w.start_time, parseT w.end_time with
      | some s, some e => decide (s ≤ tod ∧ tod ≤ e)
      | _, _ => false
    else false)

/-- The expiration check of `process_frame` (pipeline.py lines 256-264):
`expires_at` is read from the resolved user (absent user ⇒ `None`), a falsy
value (absent or `""`) is ignored, a parse failure is swallowed (`except:
pass`), and only a successfully parsed timestamp strictly before now denies. -/
def expiry_denies (parseDT : String → Option ℚ) (nowDT : ℚ)
    (user : Option User) : Bool :=
  match user with
  | none => false
  | some u =>
    match u.expires_at with
    | none => false
    | some s =>
      if s = "" then false
      else
        match parseDT s with
        | none => false
        | some t => decide (t < nowDT)

/-- `next((u for u in users if u["id"] == match["user_id"]), None)`, guarded by
`match.get("user_id") is not None`. -/
def resolve_user (users : List User) (m : Enrollment) : Option User :=
  match m.user_id with
  | some uid => users.find? (fun u => u.id == uid)
  | none => none

/-- Lines 246-266 of `process_frame`: the threshold gate, identity resolution,
and the expiration and schedule gates.  Returns the `allowed` flag and the
resolved `user_identifier`. -/
def evaluate_match (env : Env) (users : List User) (windows : List Window)
    (m? : Option Enrollment) (score : ℚ) : Bool × Option String :=
  let allowed0 : Bool := m?.isSome && decide (env.threshold ≤ score)
  match m? with
  | none => (allowed0, none)
  | some m =>
    if allowed0 = true then
      let user := resolve_user users m
      let ident : Option String :=
        match user with
        | some u => some u.identifier
        | none => m.person_name
      if m.is_local = true then (true, ident)
      else
        let a1 : Bool := !(expiry_denies env.parseDT env.nowDT user)
        let a2 : Bool :=
          match user, m.user_id with
          | some _, some uid =>
              a1 && is_within_schedule uid windows env.day env.tod env.parseT
          | _, _ => a1
        (a2, ident)
    else (false, none)

/-- `AccessController.process_frame` (pipeline.py lines 213-307).
`hasFaceAttr = none` models a recognizer without a `has_face` attribute
(fallback `has_face = True`); `some b` models `recognizer.has_face(frame)`
returning `b`.  `probe` is the vector `recognizer.embed(frame)` would return;
`eff.embed_called` records whether that call is actually made.  `now` is the
single `time.time()` sample taken at the top of the function. -/
def process_frame (env : Env) (hasFaceAttr : Option Bool) (probe : List ℚ)
    (c : Cache) (now : ℚ) (st : DState) : PFOut :=
  let has_face := hasFaceAttr.getD true
  if has_face = false then
    let ct' := if 2 < now - st.last_trigger_time ∧ 0 < st.consecutive_triggers
      then 0 else st.consecutive_triggers
    ⟨{ allowed := false, score := 0, user_identifier := none, triggered := false,
       no_face := true },
     { st with last_no_face_time := now, consecutive_triggers := ct' }, {}⟩
  else if max_consecutive_triggers ≤ st.consecutive_triggers then
    ⟨{ allowed := false, score := 0, user_identifier := none, triggered := false,
       max_triggers := true }, st, {}⟩
  else
    let bm := best_match env.sim env.model probe c.embeddings
    let ev := evaluate_match env c.users c.access_windows bm.1 bm.2
    if ev.1 = true ∧ now - st.last_trigger_time < env.cooldown_period then
      ⟨{ allowed := true, score := bm.2, user_identifier := ev.2,
         triggered := false }, st, { embed_called := true }⟩
    else
      ⟨{ allowed := ev.1, score := bm.2, user_identifier := ev.2,
         triggered := ev.1 },
       (if ev.1 = true then
          { st with last_trigger_time := now,
                    consecutive_triggers := st.consecutive_triggers + 1 }
        else st),
       { embed_called := true, gpio := ev.1,
         event := match bm.1 with | none => true | some m => !m.is_local }⟩

/-- The `config` overrides of the sync payload (`config.get("threshold")`
etc.; a missing key keeps the current setting). -/
structure RemoteConfig where
  threshold : Option ℚ := none
  gpio_pin : Option Int := none
  gpio_pulse_ms : Option Int := none
  sync_interval_sec : Option Int := none
deriving DecidableEq

/-- The response of `sync_client.fetch_sync_payload`. -/
structure Payload where
  users : List User := []
  photos : List Photo := []
  access_windows : List Window := []
  config : RemoteConfig := {}

/-- A photo of the local on-device directory together with the outcome of
`photo_path.read_bytes()` + `recognizer.embed` on it (both sit inside one
`try`, so a single `Except` models them). -/
structure LocalPhoto where
  stem : String
  filename : String
  result : Except String (List ℚ)

/-- The controller state `refresh_from_cloud` touches: the in-memory
`self.cache`, the persisted snapshot written by `cache.save_cache`, and the
settings fields overridden from the remote config. -/
structure CtrlState where
  cache : Cache
  persisted : Option Cache := none
  threshold : ℚ := 3/5
  gpio_pin : Int := 17
  gpio_pulse_ms : Int := 800
  sync_interval_sec : Int := 300

/-- `AccessController._build_embeddings_from_photos` (pipeline.py lines
143-166): `fetchEmbed` bundles `sync_client.fetch_photo` + `recognizer.embed`
(one `try` block); a failing photo is logged and skipped, never aborting. -/
def build_embeddings_from_photos (fetchEmbed : Photo → Except String (List ℚ))
    (model : String) (photos : List Photo) : List Enrollment :=
  photos.filterMap (fun p =>
    match fetchEmbed p with
    | .ok v => some { user_id := p.user_id, person_name := p.person_name,
                      vector := v, model_name := model, filename := p.filename,
                      is_local := false }
    | .error _ => none)

/-- `AccessController._load_local_users` (pipeline.py lines 90-141): each
local photo that reads and embeds successfully is appended as an `is_local`
enrollment unless one with the same `person_name` and the local flag already
exists; failures skip only that photo. -/
def load_local_users (model : String) (photos : List LocalPhoto)
    (c : Cache) : Cache :=
  photos.foldl (fun acc p =>
    match p.result with
    | .error _ => acc
    | .ok v =>
      if acc.embeddings.any (fun e => e.person_name == some p.stem && e.is_local)
      then acc
      else { acc with embeddings := acc.embeddings ++
        [{ user_id := none, person_name := some p.stem, vector := v,
           model_name := model, filename := some p.filename,
           is_local := true }] }) c

/-- `AccessController.refresh_from_cloud` (pipeline.py lines 69-88).
`fetchPayload` is the (fallible) `sync_client.fetch_sync_payload` call, which
is the first statement: if it raises, the exception propagates and nothing
else runs, so the state is returned untouched with the error.  On success the
embeddings are rebuilt from the full photo list, the in-memory cache and the
persisted snapshot are replaced (the snapshot is saved before the local users
are re-merged, exactly as in the source), and the remote config overrides are
applied. -/
def refresh_from_cloud (fetchPayload : Except String Payload)
    (fetchEmbed : Photo → Except String (List ℚ)) (model : String)
    (localPhotos : List LocalPhoto) (s : CtrlState) :
    CtrlState × Except String Unit :=
  match fetchPayload with
  | .error e => (s, .error e)
  | .ok payload =>
    let embeddings := build_embeddings_from_photos fetchEmbed model payload.photos
    let newCache : Cache :=
      { users := payload.users, embeddings := embeddings,
        access_windows := payload.access_windows }
    ({ cache := load_local_users model localPhotos newCache,
       persisted := some newCache,
       threshold := payload.config.threshold.getD s.threshold,
       gpio_pin := payload.config.gpio_pin.getD s.gpio_pin,
       gpio_pulse_ms := payload.config.gpio_pulse_ms.getD s.gpio_pulse_ms,
       sync_interval_sec :=
         payload.config.sync_interval_sec.getD s.sync_interval_sec },
     .ok ())

/-- The value of one decimal digit character, else `none`. -/
def digitVal (c : Char) : Option ℕ :=
  if '0' ≤ c ∧ c ≤ '9' then some (c.toNat - '0'.toNat) else none

/-- A two-character decimal field such as `"09"`. -/
def twoDigit (cs : List Char) : Option ℕ :=
  match cs with
  | [a, b] =>
    match digitVal a, digitVal b with
    | some x, some y => some (10 * x + y)
    | _, _ => none
  | _ => none

/-- Split a character list at every `':'`. -/
def splitColon : List Char → List (List Char)
  | [] => [[]]
  | c :: rest =>
    if c = ':' then [] :: splitColon rest
    else
      match splitColon rest with
      | [] => [[c]]
      | x :: xs => (c :: x) :: xs

/-- Model of Python `datetime.time.fromisoformat` restricted to the
`"HH:MM"` and `"HH:MM:SS"` shapes, as seconds since midnight (the order of
`datetime.time` values restricted to these shapes); any other string is a
parse failure (`ValueError`), hence `none`. -/
def parseHM (s : String) : Option ℕ :=
  match splitColon s.data with
  | [h, m] =>
    match twoDigit h, twoDigit m with
    | some hv, some mv =>
      if hv < 24 ∧ mv < 60 then some (hv * 3600 + mv * 60) else none
    | _, _ => none
  | [h, m, sec] =>
    match twoDigit h, twoDigit m, twoDigit sec with
    | some hv, some mv, some sv =>
      if hv < 24 ∧ mv < 60 ∧ sv < 60 then
        some (hv * 3600 + mv * 60 + sv)
      else none
    | _, _, _ => none
  | _ => none

/-- Exact value of `model_registry.cosine_similarity` on one-dimensional
vectors, where both norms are rational (`‖[x]‖ = |x|`):
`dot / (‖a‖·‖b‖ + 1e-9)`.  On an empty vector the source returns `0.0`;
higher-dimensional inputs (whose norms are in general irrational) are not
used by any concrete instance in this file and are mapped to `0`. -/
def simDim1 (a b : List ℚ) : ℚ :=
  match a, b with
  | [x], [y] => (x * y) / (|x| * |y| + 1 / 1000000000)
  | _, _ => 0

/-! ### Structural lemmas about the matcher loop -/

theorem bm_step_skip {sim : List ℚ → List ℚ → ℚ} {model : String}
    {probe : List ℚ} {acc : Option Enrollment × ℚ} {e : Enrollment}
    (h : ¬ eligible model probe.length e) :
    bm_step sim model probe acc e = acc := by
  by_cases h1 : model ≠ "" ∧ e.model_name ≠ "" ∧ e.model_name ≠ model
  · simp [bm_step, h1]
  · have h2 : e.vector.length ≠ probe.length := fun h2 => h ⟨h1, h2⟩
    simp [bm_step, h1, h2]

theorem bm_step_elig {sim : List ℚ → List ℚ → ℚ} {model : String}
    {probe : List ℚ} {acc : Option Enrollment × ℚ} {e : Enrollment}
    (h : eligible model probe.length e) :
    bm_step sim model probe acc e =
      if acc.2 < sim probe e.vector then (some e, sim probe e.vector)
      else acc := by
  obtain ⟨h1, h2⟩ := h
  simp [bm_step, h1, h2]

/-- Complete characterisation of the `_best_match` fold: starting from any
accumulator, either no eligible entry strictly beats it and it is returned
unchanged, or the result is the first eligible entry attaining the maximal
similarity among the eligible entries that beat the accumulator. -/
theorem bm_fold_spec (sim : List ℚ → List ℚ → ℚ) (model : String)
    (probe : List ℚ) :
    ∀ (l : List Enrollment) (acc : Option Enrollment × ℚ),
      (List.foldl (bm_step sim model probe) acc l = acc ∧
        ∀ e ∈ l, eligible model probe.length e →
          sim probe e.vector ≤ acc.2) ∨
      (∃ l₁ e l₂, l = l₁ ++ e :: l₂ ∧ eligible model probe.length e ∧
        List.foldl (bm_step sim model probe) acc l =
          (some e, sim probe e.vector) ∧
        acc.2 < sim probe e.vector ∧
        (∀ x ∈ l₁, eligible model probe.length x →
          sim probe x.vector < sim probe e.vector) ∧
        (∀ x ∈ l₂, eligible model probe.length x →
          sim probe x.vector ≤ sim probe e.vector)) := by
  intro l
  induction l with
  | nil => exact fun acc => Or.inl ⟨rfl, by simp⟩
  | cons x xs ih =>
    intro acc
    by_cases helig : eligible model probe.length x
    · by_cases hlt : acc.2 < sim probe x.vector
      · have hstep : List.foldl (bm_step sim model probe) acc (x :: xs) =
            List.foldl (bm_step sim model probe)
              (some x, sim probe x.vector) xs := by
          rw [List.foldl_cons, bm_step_elig helig, if_pos hlt]
        rcases ih (some x, sim probe x.vector) with ⟨h1, h2⟩ |
          ⟨l₁, e, l₂, heq, he, hfe, hlt', h5, h6⟩
        · exact Or.inr ⟨[], x, xs, rfl, helig, by rw [hstep, h1], hlt,
            by simp, fun y hy hey => h2 y hy hey⟩
        · refine Or.inr ⟨x :: l₁, e, l₂, by rw [heq]; rfl, he,
            by rw [hstep, hfe], lt_trans hlt hlt', ?_, h6⟩
          intro y hy hey
          rcases List.mem_cons.mp hy with h | h
          · exact h ▸ hlt'
          · exact h5 y h hey
      · have hstep : List.foldl (bm_step sim model probe) acc (x :: xs) =
            List.foldl (bm_step sim model probe) acc xs := by
          rw [List.foldl_cons, bm_step_elig helig, if_neg hlt]
        rcases ih acc with ⟨h1, h2⟩ | ⟨l₁, e, l₂, heq, he, hfe, hlt', h5, h6⟩
        · refine Or.inl ⟨by rw [hstep, h1], ?_⟩
          intro y hy hey
          rcases List.mem_cons.mp hy with h | h
          · exact h ▸ le_of_not_lt hlt
          · exact h2 y h hey
        · refine Or.inr ⟨x :: l₁, e, l₂, by rw [heq]; rfl, he,
            by rw [hstep, hfe], hlt', ?_, h6⟩
          intro y hy hey
          rcases List.mem_cons.mp hy with h | h
          · exact h ▸ lt_of_le_of_lt (le_of_not_lt hlt) hlt'
          · exact h5 y h hey
    · have hstep : List.foldl (bm_step sim model probe) acc (x :: xs) =
          List.foldl (bm_step sim model probe) acc xs := by
        rw [List.foldl_cons, bm_step_skip helig]
      rcases ih acc with ⟨h1, h2⟩ | ⟨l₁, e, l₂, heq, he, hfe, hlt', h5, h6⟩
      · refine Or.inl ⟨by rw [hstep, h1], ?_⟩
        intro y hy hey
        rcases List.mem_cons.mp hy with h | h
        · exact absurd hey (h ▸ helig)
        · exact h2 y h hey
      · refine Or.inr ⟨x :: l₁, e, l₂, by rw [heq]; rfl, he,
          by rw [hstep, hfe], hlt', ?_, h6⟩
        intro y hy hey
        rcases List.mem_cons.mp hy with h | h
        · exact absurd hey (h ▸ helig)
        · exact h5 y h hey

/-! ### Claim C2 — the matcher -/

/-- The single enrollment of the C2 counterexample: its `model_name` is empty
(a falsy value, as a missing key would be), so it differs from the active
provider's name, yet `_best_match` still compares and returns it. -/
def c2e : Enrollment :=
  { user_id := some 1
    person_name := some "eve"
    vector := [1]
    model_name := ""
    is_local := false }

/-- C2 counterexample: with active model `"hashed"` and probe `[1]`, the cache
entry `c2e` whose `model_name` (`""`) does **not** equal the provider's name is
nevertheless selected as best match, because the source skips an entry only
when *both* the provider name and the entry's `model_name` are truthy and
differ.  The claim says the matcher compares only enrollments whose
`model_name` equals the active provider's name, so it is false here. -/
theorem C2_counterexample :
    (best_match simDim1 "hashed" [1] [c2e]).1 = some c2e ∧
      c2e.model_name ≠ "hashed" := by
  constructor
  · show (bm_step simDim1 "hashed" [1] (none, 0) c2e).1 = some c2e
    norm_num [bm_step, c2e, simDim1]
  · simp [c2e]

/-- C2 (amended): `_best_match` considers exactly the `eligible` entries —
those not skipped by the model-name filter (which only fires when both the
provider name and the entry's `model_name` are nonempty and differ) and whose
dimensionality equals the probe's.  Among them it returns the first entry
attaining the maximum similarity, provided that maximum is strictly positive;
otherwise it returns `(none, 0)`. No configured threshold enters the matcher.
In particular dimension isolation holds: a returned best match always has the
probe's dimension. -/
theorem C2_amended_best_match (sim : List ℚ → List ℚ → ℚ) (model : String)
    (probe : List ℚ) (embs : List Enrollment) :
    (∀ e, (best_match sim model probe embs).1 = some e →
        eligible model probe.length e ∧
        (best_match sim model probe embs).2 = sim probe e.vector ∧
        0 < (best_match sim model probe embs).2 ∧
        ∃ l₁ l₂, embs = l₁ ++ e :: l₂ ∧
          ∀ x ∈ l₁, eligible model probe.length x →
            sim probe x.vector < (best_match sim model probe embs).2) ∧
    (∀ e ∈ embs, eligible model probe.length e →
        sim probe e.vector ≤ (best_match sim model probe embs).2) ∧
    ((best_match sim model probe embs).1 = none →
        (best_match sim model probe embs).2 = 0) := by
  have hbm : best_match sim model probe embs =
      List.foldl (bm_step sim model probe) (none, 0) embs := rfl
  rcases bm_fold_spec sim model probe embs (none, 0) with ⟨h1, h2⟩ |
    ⟨l₁, e, l₂, heq, he, hfe, hlt, h5, h6⟩
  · rw [hbm, h1]
    refine ⟨?_, ?_, fun _ => rfl⟩
    · intro e' he'; cases he'
    · exact h2
  · rw [hbm, hfe]
    refine ⟨?_, ?_, ?_⟩
    · intro e' he'
      have hee : e = e' := by simpa using he'
      subst hee
      exact ⟨he, rfl, hlt, l₁, l₂, heq, h5⟩
    · intro x hmem helig
      rw [heq] at hmem
      rcases List.mem_append.mp hmem with h | h
      · exact le_of_lt (h5 x h helig)
      · rcases List.mem_cons.mp h with h | h
        · exact h ▸ le_refl _
        · exact h6 x h helig
    · intro hnone; cases hnone

/-- A valid enrollment used to exercise `C2_amended_best_match`. -/
def c2w : Enrollment :=
  { user_id := some 2
    person_name := some "walt"
    vector := [1]
    model_name := "hashed"
    is_local := false }

/-- Witness for `C2_amended_best_match`: at the concrete model `"hashed"`,
probe `[1]` and cache `[c2w]`, the maximality clause applies to `c2w`. -/
theorem C2_witness :
    simDim1 [1] [(1 : ℚ)] ≤ (best_match simDim1 "hashed" [1] [c2w]).2 := by
  have h := (C2_amended_best_match simDim1 "hashed" [1] [c2w]).2.1 c2w
    (List.mem_singleton.mpr rfl) (by decide)
  simpa [c2w] using h

/-! ### Claim C9 — schedule evaluation -/

/-- C9: `_is_within_schedule` is `true` exactly when either the user has no
configured windows, or some window of the user matches the current weekday and
its successfully parsed `[start_time, end_time]` interval contains the time of
day inclusively (windows whose day differs or whose time strings fail to
parse contribute nothing and never raise).  Concretely, with the modelled
`time.fromisoformat`, a `09:00`-`17:00` window on the current weekday admits
`09:00:00` (32400 s) and `17:00:00` (61200 s) but rejects `08:59:59` (32399 s)
and `17:00:01` (61201 s); a window with an unparsable start time (`"9h00"`) is
skipped, denying even a time inside its nominal range. -/
theorem C9_schedule_semantics :
    (∀ (uid : Int) (ws : List Window) (day : Int) (tod : ℕ)
        (p : String → Option ℕ),
      is_within_schedule uid ws day tod p = true ↔
        ((ws.filter (fun w => w.user_id == uid)).isEmpty = true ∨
         ∃ w ∈ ws, w.user_id = uid ∧ w.day_of_week = day ∧
           ∃ s e, p w.start_time = some s ∧ p w.end_time = some e ∧
             s ≤ tod ∧ tod ≤ e)) ∧
    is_within_schedule 7 [⟨7, 2, "09:00", "17:00"⟩] 2 32400 parseHM = true ∧
    is_within_schedule 7 [⟨7, 2, "09:00", "17:00"⟩] 2 61200 parseHM = true ∧
    is_within_schedule 7 [⟨7, 2, "09:00", "17:00"⟩] 2 32399 parseHM = false ∧
    is_within_schedule 7 [⟨7, 2, "09:00", "17:00"⟩] 2 61201 parseHM = false ∧
    is_within_schedule 7 [⟨7, 2, "9h00", "17:00"⟩] 2 36000 parseHM = false := by
  refine ⟨?_, by decide, by decide, by decide, by decide, by decide⟩
  intro uid ws day tod p
  unfold is_within_schedule
  by_cases hemp : (ws.filter (fun w => w.user_id == uid)).isEmpty = true
  · simp [hemp]
  · rw [if_neg hemp, List.any_eq_true]
    constructor
    · rintro ⟨w, hwmem, hw⟩
      rw [List.mem_filter] at hwmem
      refine Or.inr ⟨w, hwmem.1, by simpa using hwmem.2, ?_⟩
      by_cases hd : (w.day_of_week == day) = true
      · rw [if_pos hd] at hw
        refine ⟨by simpa using hd, ?_⟩
        cases hs : p w.start_time with
        | none => simp [hs] at hw
        | some s' =>
          cases hee : p w.end_time with
          | none => simp [hs, hee] at hw
          | some e' =>
            rw [hs, hee] at hw
            have hb := of_decide_eq_true hw
            exact ⟨s', e', rfl, rfl, hb.1, hb.2⟩
      · rw [if_neg hd] at hw
        cases hw
    · intro h
      rcases h with hfalse | ⟨w, hwmem, huid, hd, s', e', hs, hee, h1, h2⟩
      · exact absurd hfalse hemp
      · refine ⟨w, List.mem_filter.mpr ⟨hwmem, by simpa using huid⟩, ?_⟩
        rw [if_pos (show (w.day_of_week == day) = true by simpa using hd)]
        simp only [hs, hee]
        exact decide_eq_true ⟨h1, h2⟩

/-! ### Concrete fixtures shared by witnesses -/

/-- A concrete environment: the default threshold 0.6, the default cooldown
5.0 s, the `hashed` provider, the exact dimension-1 cosine model, and a UTC
instant on weekday 2 at 10:00:00. -/
def wEnv : Env :=
  { threshold := 3/5
    cooldown_period := 5
    model := "hashed"
    sim := simDim1
    parseT := parseHM
    parseDT := fun _ => none
    day := 2
    tod := 36000
    nowDT := 100 }

/-- A concrete non-local enrollment for server user 1. -/
def wEnr : Enrollment :=
  { user_id := some 1
    person_name := some "alice"
    vector := [1]
    model_name := "hashed"
    is_local := false }

/-- The server user record backing `wEnr`. -/
def wUser : User := { id := 1, identifier := "alice" }

/-- A cache with the single enrollment `wEnr`, its user, and no windows. -/
def wCache : Cache :=
  { users := [wUser]
    embeddings := [wEnr]
    access_windows := [] }

/-- The similarity score `simDim1 [1] [1]` of the fixtures. -/
def wScore : ℚ := 1000000000 / 1000000001

/-! ### Claim C5 — burst gate -/

/-- C5: on a frame with a detected face, once `consecutive_triggers` has
reached `max_consecutive_triggers` (3), `process_frame` returns the
`max_triggers` deny without touching the state, without calling the embedding
function (hence without running the matcher), without pulsing the GPIO and
without posting an event. -/
theorem C5_burst_gate (env : Env) (hf : Option Bool) (probe : List ℚ)
    (c : Cache) (now : ℚ) (st : DState)
    (hface : hf.getD true = true)
    (hct : max_consecutive_triggers ≤ st.consecutive_triggers) :
    process_frame env hf probe c now st =
      ⟨{ allowed := false, score := 0, user_identifier := none,
         triggered := false, no_face := false, max_triggers := true }, st,
       { embed_called := false, gpio := false, event := false }⟩ := by
  simp [process_frame, hface, hct]

/-- Witness for `C5_burst_gate` at a concrete otherwise-allowed frame with
`consecutive_triggers = 3`. -/
theorem C5_witness :
    process_frame wEnv (some true) [1] wCache 10 ⟨0, 3, 0⟩ =
      ⟨{ allowed := false, score := 0, user_identifier := none,
         triggered := false, no_face := false, max_triggers := true },
       ⟨0, 3, 0⟩, { embed_called := false, gpio := false, event := false }⟩ :=
  C5_burst_gate wEnv (some true) [1] wCache 10 ⟨0, 3, 0⟩ rfl (by decide)

/-! ### Claim C6 — presence gate -/

/-- C6: when the provider reports no detectable subject, `process_frame`
returns the `no_face` deny without calling the embedding function, pulsing the
GPIO or posting an event; it records `last_no_face_time := now`, leaves
`last_trigger_time` unchanged, resets `consecutive_triggers` to 0 when more
than 2 seconds have elapsed since the last trigger and keeps it otherwise. -/
theorem C6_presence_gate (env : Env) (hf : Option Bool) (probe : List ℚ)
    (c : Cache) (now : ℚ) (st : DState)
    (hface : hf = some false) :
    (process_frame env hf probe c now st).res =
      { allowed := false, score := 0, user_identifier := none,
        triggered := false, no_face := true, max_triggers := false } ∧
    (process_frame env hf probe c now st).eff =
      { embed_called := false, gpio := false, event := false } ∧
    (process_frame env hf probe c now st).state.last_no_face_time = now ∧
    (process_frame env hf probe c now st).state.last_trigger_time =
      st.last_trigger_time ∧
    (2 < now - st.last_trigger_time →
      (process_frame env hf probe c now st).state.consecutive_triggers = 0) ∧
    (¬ 2 < now - st.last_trigger_time →
      (process_frame env hf probe c now st).state.consecutive_triggers =
        st.consecutive_triggers) := by
  subst hface
  refine ⟨by simp [process_frame], by simp [process_frame],
    by simp [process_frame], by simp [process_frame], ?_, ?_⟩
  · intro h2
    rcases Nat.eq_zero_or_pos st.consecutive_triggers with h0 | h0
    · simp [process_frame, h2, h0]
    · simp [process_frame, h2, h0]
  · intro h2
    simp [process_frame, h2]

/-- Witness for `C6_presence_gate` at a concrete no-face frame more than two
seconds after the last trigger. -/
theorem C6_witness :
    (process_frame wEnv (some false) [1] wCache 10 ⟨0, 2, 0⟩).res =
      { allowed := false, score := 0, user_identifier := none,
        triggered := false, no_face := true, max_triggers := false } ∧
    (process_frame wEnv (some false) [1] wCache 10
        ⟨0, 2, 0⟩).state.consecutive_triggers = 0 := by
  have h := C6_presence_gate wEnv (some false) [1] wCache 10 ⟨0, 2, 0⟩ rfl
  exact ⟨h.1, h.2.2.2.2.1 (by norm_num)⟩

/-! ### The main path of `process_frame` -/

/-- The `(allowed, user_identifier)` pair `process_frame` computes once the
presence and burst gates have passed (threshold, identity resolution,
expiration and schedule gates on the best match). -/
def pf_ev (env : Env) (probe : List ℚ) (c : Cache) : Bool × Option String :=
  evaluate_match env c.users c.access_windows
    (best_match env.sim env.model probe c.embeddings).1
    (best_match env.sim env.model probe c.embeddings).2

/-- Once the presence gate and the burst gate have passed, `process_frame`
either returns early on cooldown (state untouched, no GPIO, no event) or
takes the final path (GPIO and state update exactly when allowed, event
posted unless the best match is local). -/
theorem process_frame_main (env : Env) (hf : Option Bool) (probe : List ℚ)
    (c : Cache) (now : ℚ) (st : DState)
    (hface : hf.getD true = true)
    (hct : st.consecutive_triggers < max_consecutive_triggers) :
    process_frame env hf probe c now st =
      if (pf_ev env probe c).1 = true ∧
          now - st.last_trigger_time < env.cooldown_period then
        ⟨{ allowed := true
           score := (best_match env.sim env.model probe c.embeddings).2
           user_identifier := (pf_ev env probe c).2
           triggered := false }, st, { embed_called := true }⟩
      else
        ⟨{ allowed := (pf_ev env probe c).1
           score := (best_match env.sim env.model probe c.embeddings).2
           user_identifier := (pf_ev env probe c).2
           triggered := (pf_ev env probe c).1 },
         (if (pf_ev env probe c).1 = true then
            { st with last_trigger_time := now,
                      consecutive_triggers := st.consecutive_triggers + 1 }
          else st),
         { embed_called := true, gpio := (pf_ev env probe c).1,
           event := match (best_match env.sim env.model probe c.embeddings).1 with
                    | none => true
                    | some m => !m.is_local }⟩ := by
  have hct' : ¬ max_consecutive_triggers ≤ st.consecutive_triggers :=
    Nat.not_le.mpr hct
  simp [process_frame, pf_ev, hface, hct']

/-! ### Claim C1 — event emission -/

/-- C1 (amended): an access event is attempted exactly on the decisions that
reach the final return of `process_frame` — i.e. not on the presence-gate
deny, not on the burst-gate deny, and not on the cooldown-suppressed allow
(all three return early, before the event code) — and, there, exactly when
there is no best match or the best match is not a local enrollment.  On the
final path `triggered = allowed`, so the cooldown early return is
characterised by `triggered ≠ allowed`. -/
theorem C1_event_iff_final_path (env : Env) (hf : Option Bool)
    (probe : List ℚ) (c : Cache) (now : ℚ) (st : DState) :
    (process_frame env hf probe c now st).eff.event =
      (!(process_frame env hf probe c now st).res.no_face &&
       !(process_frame env hf probe c now st).res.max_triggers &&
       ((process_frame env hf probe c now st).res.triggered ==
         (process_frame env hf probe c now st).res.allowed) &&
       (match (best_match env.sim env.model probe c.embeddings).1 with
        | none => true
        | some m => !m.is_local)) := by
  simp only [process_frame]
  split
  · simp
  · split
    · simp
    · split
      · simp
      · simp

/-- C1 counterexample: a concrete allowed-but-cooldown-suppressed decision
(non-local best match, score above threshold, 3 s after the last trigger with
a 5 s cooldown) for which no event is attempted, although the claim demands
one.  The first four conjuncts show the decision is the cooldown-suppressed
allow; the next two show the best match exists and is not local (so the
claim's only exception does not apply); the last shows no event was sent. -/
theorem C1_counterexample :
    (process_frame wEnv (some true) [1] wCache 4 ⟨1, 1, 0⟩).res.allowed = true ∧
    (process_frame wEnv (some true) [1] wCache 4 ⟨1, 1, 0⟩).res.triggered = false ∧
    (process_frame wEnv (some true) [1] wCache 4 ⟨1, 1, 0⟩).res.no_face = false ∧
    (process_frame wEnv (some true) [1] wCache 4
        ⟨1, 1, 0⟩).res.max_triggers = false ∧
    (best_match wEnv.sim wEnv.model [1] wCache.embeddings).1 = some wEnr ∧
    wEnr.is_local = false ∧
    (process_frame wEnv (some true) [1] wCache 4 ⟨1, 1, 0⟩).eff.event = false := by
  norm_num [process_frame, evaluate_match, best_match, bm_step, resolve_user,
    expiry_denies, is_within_schedule, max_consecutive_triggers, wEnv, wCache,
    wEnr, wUser, simDim1]

/-! ### Claim C8 — local enrollments bypass expiry/schedule and reporting -/

/-- C8: whenever the best match is flagged `is_local`, no event post is ever
attempted (on any path), and — whatever the cache's users, windows,
`expires_at` values and parsers — a score at or above the threshold yields an
allowed decision: the expiration and schedule gates are skipped entirely. -/
theorem C8_local_bypass (env : Env) (hf : Option Bool) (probe : List ℚ)
    (c : Cache) (now : ℚ) (st : DState) (m : Enrollment) (s : ℚ)
    (hface : hf.getD true = true)
    (hct : st.consecutive_triggers < max_consecutive_triggers)
    (hbm : best_match env.sim env.model probe c.embeddings = (some m, s))
    (hloc : m.is_local = true) :
    (process_frame env hf probe c now st).eff.event = false ∧
    (env.threshold ≤ s →
      (process_frame env hf probe c now st).res.allowed = true) := by
  constructor
  · rw [process_frame_main env hf probe c now st hface hct]
    split
    · rfl
    · simp [hbm, hloc]
  · intro hth
    have hev : (pf_ev env probe c).1 = true := by
      simp [pf_ev, hbm, evaluate_match, hloc, decide_eq_true hth]
    rw [process_frame_main env hf probe c now st hface hct]
    split
    · rfl
    · simp [hev]

/-- The local enrollment of the C8 witness (no server `user_id`). -/
def wLocalEnr : Enrollment :=
  { user_id := none
    person_name := some "bob"
    vector := [1]
    model_name := "hashed"
    is_local := true }

/-- A cache containing only the local enrollment `wLocalEnr`. -/
def wLocalCache : Cache :=
  { users := []
    embeddings := [wLocalEnr]
    access_windows := [] }

/-- Witness for `C8_local_bypass` at a concrete local match above
threshold. -/
theorem C8_witness :
    (process_frame wEnv (some true) [1] wLocalCache 10 ⟨0, 0, 0⟩).eff.event =
      false ∧
    (process_frame wEnv (some true) [1] wLocalCache 10
        ⟨0, 0, 0⟩).res.allowed = true := by
  have h := C8_local_bypass wEnv (some true) [1] wLocalCache 10 ⟨0, 0, 0⟩
    wLocalEnr wScore rfl (by decide)
    (by norm_num [best_match, bm_step, wEnv, wLocalCache, wLocalEnr, wScore,
      simDim1])
    rfl
  exact ⟨h.1, h.2 (by norm_num [wEnv, wScore])⟩

/-! ### Claim C4 — cooldown gate -/

/-- C4: (first part) when the decision is allowed but less than
`cooldown_period` seconds have elapsed since `last_trigger_time`,
`process_frame` returns `allowed = true, triggered = false`, does not pulse
the GPIO and leaves the state untouched; (second part) two allowed decisions
within `cooldown_period` of one another — the first out of cooldown, the
second within `cooldown_period` of it — produce exactly one GPIO trigger. -/
theorem C4_cooldown_idempotence :
    (∀ (env : Env) (hf : Option Bool) (probe : List ℚ) (c : Cache)
        (now : ℚ) (st : DState),
      hf.getD true = true →
      st.consecutive_triggers < max_consecutive_triggers →
      (pf_ev env probe c).1 = true →
      now - st.last_trigger_time < env.cooldown_period →
      process_frame env hf probe c now st =
        ⟨{ allowed := true
           score := (best_match env.sim env.model probe c.embeddings).2
           user_identifier := (pf_ev env probe c).2
           triggered := false }, st, { embed_called := true }⟩) ∧
    (∀ (env : Env) (hf₁ hf₂ : Option Bool) (probe₁ probe₂ : List ℚ)
        (c : Cache) (now₁ now₂ : ℚ) (st : DState),
      hf₁.getD true = true → hf₂.getD true = true →
      st.consecutive_triggers < max_consecutive_triggers →
      (pf_ev env probe₁ c).1 = true → (pf_ev env probe₂ c).1 = true →
      ¬ now₁ - st.last_trigger_time < env.cooldown_period →
      now₂ - now₁ < env.cooldown_period →
      (if (process_frame env hf₁ probe₁ c now₁ st).eff.gpio then 1 else 0) +
        (if (process_frame env hf₂ probe₂ c now₂
              (process_frame env hf₁ probe₁ c now₁ st).state).eff.gpio
         then 1 else 0) = 1) := by
  constructor
  · intro env hf probe c now st hface hct hev hcool
    rw [process_frame_main env hf probe c now st hface hct, if_pos ⟨hev, hcool⟩]
  · intro env hf₁ hf₂ probe₁ probe₂ c now₁ now₂ st hface₁ hface₂ hct hev₁ hev₂
      hncool hcool
    have hgpio1 : (process_frame env hf₁ probe₁ c now₁ st).eff.gpio = true := by
      rw [process_frame_main env hf₁ probe₁ c now₁ st hface₁ hct,
        if_neg (fun hc => hncool hc.2)]
      simp [hev₁]
    have hst1 : (process_frame env hf₁ probe₁ c now₁ st).state =
        { st with last_trigger_time := now₁,
                  consecutive_triggers := st.consecutive_triggers + 1 } := by
      rw [process_frame_main env hf₁ probe₁ c now₁ st hface₁ hct,
        if_neg (fun hc => hncool hc.2)]
      simp [hev₁]
    have hgpio2 : (process_frame env hf₂ probe₂ c now₂
        (process_frame env hf₁ probe₁ c now₁ st).state).eff.gpio = false := by
      rw [hst1]
      by_cases hb : max_consecutive_triggers ≤ st.consecutive_triggers + 1
      · simp [process_frame, hface₂, hb]
      · have hct2 : st.consecutive_triggers + 1 < max_consecutive_triggers :=
          Nat.lt_of_not_le hb
        rw [process_frame_main env hf₂ probe₂ c now₂ _ hface₂ hct2,
          if_pos ⟨hev₂, by simpa using hcool⟩]
    rw [hgpio1, hgpio2]
    simp

/-- Witness for `C4_cooldown_idempotence`: a trigger at `t = 10` followed by a
second allowed decision at `t = 12` (within the 5 s cooldown) pulses the GPIO
exactly once. -/
theorem C4_witness :
    (if (process_frame wEnv (some true) [1] wCache 10 ⟨0, 0, 0⟩).eff.gpio
     then 1 else 0) +
      (if (process_frame wEnv (some true) [1] wCache 12
            (process_frame wEnv (some true) [1] wCache 10 ⟨0, 0, 0⟩).state).eff.gpio
       then 1 else 0) = 1 :=
  C4_cooldown_idempotence.2 wEnv (some true) (some true) [1] [1] wCache 10 12
    ⟨0, 0, 0⟩ rfl rfl (by decide)
    (by norm_num [pf_ev, evaluate_match, best_match, bm_step, resolve_user,
      expiry_denies, is_within_schedule, wEnv, wCache, wEnr, wUser, simDim1])
    (by norm_num [pf_ev, evaluate_match, best_match, bm_step, resolve_user,
      expiry_denies, is_within_schedule, wEnv, wCache, wEnr, wUser, simDim1])
    (by norm_num [wEnv]) (by norm_num [wEnv])

/-! ### Claim C3 — schedule gate and missing user records -/

/-- The non-local enrollment of the C3 counterexample: `user_id = 5` has no
`users` record in the cache, but does have an access window (on another
weekday, so `_is_within_schedule` would deny). -/
def c3m : Enrollment :=
  { user_id := some 5
    person_name := some "carol"
    vector := [1]
    model_name := "hashed"
    is_local := false }

/-- Cache for the C3 counterexample: no user record for id 5, one window for
user 5 on weekday 1 (while the environment is at weekday 2). -/
def c3cache : Cache :=
  { users := []
    embeddings := [c3m]
    access_windows := [⟨5, 1, "09:00", "17:00"⟩] }

/-- C3 counterexample: a non-local match above threshold whose `user_id` has
no `User` record is **allowed** although `_is_within_schedule` for that id is
false — the schedule gate is only reached when a user record was resolved
(`if allowed and user:`), so the claim that the gate applies even when no
record is found is false. -/
theorem C3_counterexample :
    (process_frame wEnv (some true) [1] c3cache 100 ⟨0, 0, 0⟩).res.allowed =
      true ∧
    is_within_schedule 5 c3cache.access_windows wEnv.day wEnv.tod wEnv.parseT =
      false ∧
    (best_match wEnv.sim wEnv.model [1] c3cache.embeddings).1 = some c3m ∧
    c3m.is_local = false ∧ c3m.user_id = some 5 ∧
    wEnv.threshold ≤ (best_match wEnv.sim wEnv.model [1] c3cache.embeddings).2 := by
  norm_num [process_frame, evaluate_match, best_match, bm_step, resolve_user,
    expiry_denies, is_within_schedule, max_consecutive_triggers, wEnv, c3cache,
    c3m, simDim1]

/-- C3 (amended): for a non-local match that passed the threshold gate, the
schedule gate is applied **only when a `User` record for `match.user_id` is
found**: with no record the decision is allowed without any schedule check,
and with a record (whose expiration does not deny) the decision equals
`_is_within_schedule` of that id. -/
theorem C3_amended_schedule_needs_user (env : Env) (hf : Option Bool)
    (probe : List ℚ) (c : Cache) (now : ℚ) (st : DState) (m : Enrollment)
    (s : ℚ) (uid : Int)
    (hface : hf.getD true = true)
    (hct : st.consecutive_triggers < max_consecutive_triggers)
    (hbm : best_match env.sim env.model probe c.embeddings = (some m, s))
    (hnl : m.is_local = false)
    (hth : env.threshold ≤ s)
    (huid : m.user_id = some uid) :
    (c.users.find? (fun u => u.id == uid) = none →
      (process_frame env hf probe c now st).res.allowed = true) ∧
    (∀ u, c.users.find? (fun u => u.id == uid) = some u →
      expiry_denies env.parseDT env.nowDT (some u) = false →
      (process_frame env hf probe c now st).res.allowed =
        is_within_schedule uid c.access_windows env.day env.tod env.parseT) := by
  have hd := decide_eq_true hth
  constructor
  · intro hfind
    have hev : pf_ev env probe c = (true, m.person_name) := by
      simp [pf_ev, hbm, evaluate_match, resolve_user, huid, hfind, hnl, hd,
        expiry_denies]
    rw [process_frame_main env hf probe c now st hface hct]
    split
    · rfl
    · simp [hev]
  · intro u hfind hexp
    have hev : pf_ev env probe c =
        (is_within_schedule uid c.access_windows env.day env.tod env.parseT,
         some u.identifier) := by
      simp [pf_ev, hbm, evaluate_match, resolve_user, huid, hfind, hnl, hd,
        hexp]
    rw [process_frame_main env hf probe c now st hface hct]
    by_cases hs : is_within_schedule uid c.access_windows env.day env.tod
        env.parseT = true
    · split
      · simp [hs]
      · simp [hev]
    · rw [if_neg (fun hc => hs (by rw [hev] at hc; exact hc.1))]
      simp [hev]

/-- Cache for the C3 witness: the user record for id 1 exists, and a window
on the current weekday admits the current time of day. -/
def c3wCache : Cache :=
  { users := [wUser]
    embeddings := [wEnr]
    access_windows := [⟨1, 2, "09:00", "17:00"⟩] }

/-- Witness for `C3_amended_schedule_needs_user`: with the user record
present, the decision equals the schedule evaluation. -/
theorem C3_witness :
    (process_frame wEnv (some true) [1] c3wCache 100 ⟨0, 0, 0⟩).res.allowed =
      is_within_schedule 1 c3wCache.access_windows wEnv.day wEnv.tod
        wEnv.parseT := by
  have h := C3_amended_schedule_needs_user wEnv (some true) [1] c3wCache 100
    ⟨0, 0, 0⟩ wEnr wScore 1 rfl (by decide)
    (by norm_num [best_match, bm_step, wEnv, c3wCache, wEnr, wScore, simDim1])
    rfl (by norm_num [wEnv, wScore]) rfl
  exact h.2 wUser (by decide) rfl

/-! ### Claim C10 — malformed `expires_at` -/

/-- C10: an `expires_at` string the parser rejects can never cause a deny:
the exception is swallowed (`except: pass`) and the decision proceeds exactly
as if `expires_at` were absent — for a non-local, above-threshold match with
a resolved user record, the outcome is exactly the schedule evaluation and
the resolved identifier, independent of the malformed value. -/
theorem C10_malformed_expiry :
    (∀ (pd : String → Option ℚ) (ndt : ℚ) (u : User) (str : String),
      pd str = none →
      expiry_denies pd ndt (some { u with expires_at := some str }) = false) ∧
    (∀ (env : Env) (users : List User) (windows : List Window)
        (m : Enrollment) (s : ℚ) (uid : Int) (u : User) (str : String),
      m.is_local = false → m.user_id = some uid →
      users.find? (fun x => x.id == uid) = some u →
      u.expires_at = some str → env.parseDT str = none →
      env.threshold ≤ s →
      evaluate_match env users windows (some m) s =
        (is_within_schedule uid windows env.day env.tod env.parseT,
         some u.identifier)) := by
  constructor
  · intro pd ndt u str hparse
    by_cases hstr : str = ""
    · simp [expiry_denies, hstr]
    · simp [expiry_denies, hstr, hparse]
  · intro env users windows m s uid u str hnl huid hfind hexp hparse hth
    have hden : expiry_denies env.parseDT env.nowDT (some u) = false := by
      by_cases hstr : str = ""
      · simp [expiry_denies, hexp, hstr]
      · simp [expiry_denies, hexp, hstr, hparse]
    simp [evaluate_match, resolve_user, huid, hfind, hnl, decide_eq_true hth,
      hden]

/-- A user whose `expires_at` is a string `datetime.fromisoformat` rejects. -/
def c10u : User := { id := 1, identifier := "dora", expires_at := some "not-a-date" }

/-- Witness for `C10_malformed_expiry`: the malformed `expires_at` neither
denies nor disturbs identity resolution. -/
theorem C10_witness :
    evaluate_match wEnv [c10u] [] (some wEnr) wScore = (true, some "dora") := by
  have h := C10_malformed_expiry.2 wEnv [c10u] [] wEnr wScore 1 c10u
    "not-a-date" rfl rfl (by decide) rfl rfl (by norm_num [wEnv, wScore])
  simpa [is_within_schedule, c10u] using h

/-! ### Claim C7 — resync atomicity -/

/-- C7: a failed catalog fetch leaves the whole controller state (in-memory
cache, persisted snapshot, settings) untouched and returns the error; a
successful fetch always completes (`.ok`), individual photo failures merely
drop that photo from the rebuilt embeddings, and the snapshot installed on
success is a function of the *complete* photo list. -/
theorem C7_resync_atomicity :
    (∀ (e : String) (fe : Photo → Except String (List ℚ)) (model : String)
        (lp : List LocalPhoto) (s : CtrlState),
      refresh_from_cloud (.error e) fe model lp s = (s, .error e)) ∧
    (∀ (pl : Payload) (fe : Photo → Except String (List ℚ)) (model : String)
        (lp : List LocalPhoto) (s : CtrlState),
      (refresh_from_cloud (.ok pl) fe model lp s).2 = .ok ()) ∧
    (∀ (fe : Photo → Except String (List ℚ)) (model : String)
        (l₁ l₂ : List Photo) (p : Photo) (err : String),
      fe p = .error err →
      build_embeddings_from_photos fe model (l₁ ++ p :: l₂) =
        build_embeddings_from_photos fe model (l₁ ++ l₂)) ∧
    (∀ (pl : Payload) (fe : Photo → Except String (List ℚ)) (model : String)
        (lp : List LocalPhoto) (s : CtrlState),
      (refresh_from_cloud (.ok pl) fe model lp s).1.persisted =
        some { users := pl.users
               embeddings := build_embeddings_from_photos fe model pl.photos
               access_windows := pl.access_windows }) := by
  refine ⟨fun _ _ _ _ _ => rfl, fun _ _ _ _ _ => rfl, ?_, fun _ _ _ _ _ => rfl⟩
  intro fe model l₁ l₂ p err hfe
  simp [build_embeddings_from_photos, List.filterMap_append,
    List.filterMap_cons, hfe]

/-- Witness for `C7_resync_atomicity`: a photo whose fetch/embedding fails is
simply dropped from the rebuilt embedding list. -/
theorem C7_witness :
    build_embeddings_from_photos (fun _ => .error "net down") "hashed"
        ([] ++ { url := "u1" } :: []) =
      build_embeddings_from_photos (fun _ => .error "net down") "hashed"
        ([] ++ []) :=
  C7_resync_atomicity.2.2.1 (fun _ => .error "net down") "hashed" [] []
    { url := "u1" } "net down" rfl

end Raspberry
